import Mathlib

/-!
Verification of the editable `Text` field component of solid-ui-react
(`src/components/text/index.tsx`) and the file-size constraint of the
`Video` field component.

The component logic is embedded shallowly:

* `Thing` and `SolidDataset` model the linked-data values of the external
  `@inrupt/solid-client` library, together with the pure library functions
  the component calls (`setStringNoLocale`, `setStringWithLocale`,
  `setThing`, `hasResourceInfo`, `getSourceUrl`).
* The asynchronous external writer `saveSolidDatasetAt` is modelled as an
  oracle `world : String → SolidDataset → Except String SolidDataset`
  giving, for each invocation, either the server-acknowledged saved
  dataset or a rejection.
* Every observable action of an event handler (writer invocation,
  `setDataset`, `onSave`, `onError`, the throwing `setErrorState` updater)
  is recorded, in program order, in a trace of `SaveEvent`s; the effect of
  a trace on component state is `runTrace`.
-/

namespace SolidUI

/-- Model of a solid-client `Thing`: a subject URL together with its
property assertions `(predicate, string value, optional locale)`. -/
structure Thing where
  url : String
  props : List (String × String × Option String)
  deriving DecidableEq, Repr

/-- Model of a solid-client `SolidDataset`: its things plus the resource
info (source URL) present exactly when the dataset was fetched from
somewhere. -/
structure SolidDataset where
  things : List Thing
  resourceInfo : Option String
  deriving DecidableEq, Repr

/-- solid-client `hasResourceInfo`: the dataset carries resource info. -/
def hasResourceInfo (d : SolidDataset) : Bool :=
  d.resourceInfo.isSome

/-- solid-client `getSourceUrl`: the source URL recorded in the resource
info (only called by the component under a `hasResourceInfo` guard). -/
def getSourceUrl (d : SolidDataset) : String :=
  d.resourceInfo.getD ""

/-- solid-client `setStringNoLocale thing property value`: replaces the
values of `property` on `thing` by the single value `value`, no locale. -/
def setStringNoLocale (t : Thing) (property v : String) : Thing :=
  { t with props := (property, v, none) :: t.props.filter (fun q => q.1 ≠ property) }

/-- solid-client `setStringWithLocale thing property value locale`. -/
def setStringWithLocale (t : Thing) (property v locale : String) : Thing :=
  { t with props := (property, v, some locale) :: t.props.filter (fun q => q.1 ≠ property) }

/-- solid-client `setThing dataset thing`: the dataset with `thing`
inserted, replacing any thing with the same subject URL. -/
def setThing (d : SolidDataset) (t : Thing) : SolidDataset :=
  { d with things := t :: d.things.filter (fun x => x.url ≠ t.url) }

/-- JavaScript truthiness of an optional string prop (`undefined` and the
empty string are falsy, as in `if (saveDatasetTo)` / `if (locale)`). -/
def truthy : Option String → Bool
  | none => false
  | some s => s ≠ ""

/-- The props of the `Text` component that the save/render logic reads.
`onSave` and `onError` record whether the optional callback was passed. -/
structure Props where
  saveDatasetTo : Option String
  locale : Option String
  autosave : Bool
  edit : Bool
  onSave : Bool
  onError : Bool
  property : String
  deriving DecidableEq, Repr

/-- The component state relevant to the claims: the edit buffer `text`,
the `initialValue` snapshot, and the canonical `dataset` held by
`useProperty` (updated through `setDataset`). -/
structure TextState where
  text : Option String
  initialValue : Option String
  dataset : Option SolidDataset
  deriving DecidableEq, Repr

/-- One observable action of the `Text` component's handlers, in program
order: an invocation of the external writer `saveSolidDatasetAt`
(location and request body), a `setDataset` call, an `onSave` or
`onError` callback invocation, or the `setErrorState` updater that throws
a configuration `Error` during the next render. -/
inductive SaveEvent where
  | writeCall (location : String) (body : SolidDataset)
  | setDatasetCall (ds : SolidDataset)
  | onSaveCall (saved : Option SolidDataset) (updated : Thing)
  | onErrorCall (err : String)
  | errorStateThrow (msg : String)
  deriving DecidableEq, Repr

/-- Lines 87-97 of `saveHandler`: the updated `Thing` carrying the new
value — `setStringWithLocale` when a (truthy) `locale` prop is given,
`setStringNoLocale` otherwise. -/
def updatedThing (p : Props) (t : Thing) (newValue : String) : Thing :=
  match p.locale with
  | some l => if l ≠ "" then setStringWithLocale t p.property newValue l
              else setStringNoLocale t p.property newValue
  | none => setStringNoLocale t p.property newValue

/-- The trace of `saveHandler` (lines 84-134 of
`src/components/text/index.tsx`), given the writer oracle `world`, the
props, the current `initialValue`, `thing` and `dataset` bindings, and
the input's current value `targetValue` (`e.target.value`).

Guard: `initialValue !== e.target.value && thing && dataset`. Then the
updated resource is built; with a truthy `saveDatasetTo` the writer is
awaited on that location and `setDataset` is called on its result; else
with resource info the writer is awaited on `getSourceUrl(dataset)`;
else the throwing `setErrorState` updater is installed and `savedDataset`
stays `undefined`. A writer rejection jumps to the `catch`, which calls
`onError` when provided; otherwise `onSave`, when provided, is called
with `(savedDataset, updatedResource)`. -/
def saveHandler (world : String → SolidDataset → Except String SolidDataset)
    (p : Props) (initialValue : Option String) (thing : Option Thing)
    (dataset : Option SolidDataset) (targetValue : String) : List SaveEvent :=
  match thing, dataset with
  | some t, some d =>
    if initialValue = some targetValue then []
    else
      let updatedResource := updatedThing p t targetValue
      if truthy p.saveDatasetTo then
        let loc := p.saveDatasetTo.getD ""
        let body := setThing d updatedResource
        match world loc body with
        | Except.ok saved =>
          [SaveEvent.writeCall loc body, SaveEvent.setDatasetCall saved] ++
            (if p.onSave then [SaveEvent.onSaveCall (some saved) updatedResource] else [])
        | Except.error e =>
          [SaveEvent.writeCall loc body] ++
            (if p.onError then [SaveEvent.onErrorCall e] else [])
      else if hasResourceInfo d then
        let loc := getSourceUrl d
        let body := setThing d updatedResource
        match world loc body with
        | Except.ok saved =>
          [SaveEvent.writeCall loc body, SaveEvent.setDatasetCall saved] ++
            (if p.onSave then [SaveEvent.onSaveCall (some saved) updatedResource] else [])
        | Except.error e =>
          [SaveEvent.writeCall loc body] ++
            (if p.onError then [SaveEvent.onErrorCall e] else [])
      else
        [SaveEvent.errorStateThrow "Please provide saveDatasetTo location for new data"] ++
          (if p.onSave then [SaveEvent.onSaveCall none updatedResource] else [])
  | _, _ => []

/-- The blur handler of the rendered input (line 154):
`onBlur={(e) => autosave && saveHandler(e)}`. -/
def blurHandler (world : String → SolidDataset → Except String SolidDataset)
    (p : Props) (initialValue : Option String) (thing : Option Thing)
    (dataset : Option SolidDataset) (targetValue : String) : List SaveEvent :=
  if p.autosave then saveHandler world p initialValue thing dataset targetValue
  else []

/-- The change handler (line 153): `onChange={(e) => setText(e.target.value)}`.
It updates the edit buffer and performs no other action (empty trace). -/
def changeHandler (s : TextState) (targetValue : String) : TextState × List SaveEvent :=
  ({ s with text := some targetValue }, [])

/-- The focus handler (line 152): `onFocus={(e) => setInitialValue(e.target.value)}`. -/
def focusHandler (s : TextState) (targetValue : String) : TextState :=
  { s with initialValue := some targetValue }

/-- Effect of one trace event on the component state: only `setDataset`
changes state (`saveHandler` never calls `setText` or `setInitialValue`,
and the thrown `setErrorState` updater commits no state). -/
def applyEvent (s : TextState) : SaveEvent → TextState
  | SaveEvent.setDatasetCall ds => { s with dataset := some ds }
  | _ => s

/-- State reached after a handler trace. -/
def runTrace (s : TextState) (tr : List SaveEvent) : TextState :=
  tr.foldl applyEvent s

/-- Number of invocations of the external writer `saveSolidDatasetAt` in
a trace. -/
def countWrites (tr : List SaveEvent) : Nat :=
  (tr.filter fun e => match e with | SaveEvent.writeCall _ _ => true | _ => false).length

/-- Number of `setDataset` calls in a trace. -/
def countSetDataset (tr : List SaveEvent) : Nat :=
  (tr.filter fun e => match e with | SaveEvent.setDatasetCall _ => true | _ => false).length

/-- The arguments of the `onSave` invocations in a trace, in order. -/
def onSaveCalls (tr : List SaveEvent) : List (Option SolidDataset × Thing) :=
  tr.filterMap fun e => match e with
    | SaveEvent.onSaveCall saved updated => some (saved, updated)
    | _ => none

/-- The arguments of the `onError` invocations in a trace, in order. -/
def onErrorCalls (tr : List SaveEvent) : List String :=
  tr.filterMap fun e => match e with
    | SaveEvent.onErrorCall err => some err
    | _ => none

/-- The messages of configuration errors a trace throws from the
`setErrorState` updater (these escape to the surrounding error boundary). -/
def thrownErrors (tr : List SaveEvent) : List String :=
  tr.filterMap fun e => match e with
    | SaveEvent.errorStateThrow msg => some msg
    | _ => none

/-- What the component returns (lines 136-159): the loading header when
both `dataset` and `thing` are absent; otherwise a fragment whose span is
rendered, with content the edit buffer, exactly when `edit` is false and
`dataset` and `thing` are present, and whose input is rendered, with
value `text || ""`, exactly when `edit` is true and `dataset` and `thing`
are present. -/
inductive Rendered where
  | loading
  | fragment (span : Option (Option String)) (input : Option String)
  deriving DecidableEq, Repr

/-- The render step of `Text` as a function of props, the `thing` binding
and the component state. -/
def render (p : Props) (thing : Option Thing) (s : TextState) : Rendered :=
  if s.dataset = none ∧ thing = none then Rendered.loading
  else
    Rendered.fragment
      (if p.edit = false ∧ s.dataset.isSome ∧ thing.isSome then some s.text else none)
      (if p.edit = true ∧ s.dataset.isSome ∧ thing.isSome then some (s.text.getD "") else none)

/-- The state at mount (lines 77-81): both `text` and `initialValue` are
initialised from the resolved `value` of `useProperty`. -/
def initialTextState (value : Option String) (dataset : Option SolidDataset) : TextState :=
  { text := value, initialValue := value, dataset := dataset }

/-- Modelled from the spec: the `Video` component source is not under
`src/` (only its test file is). The props its file-input change handler
reads: the autosave flag and the optional maximum payload size. -/
structure VideoProps where
  autosave : Bool
  maxSize : Option Nat
  deriving DecidableEq, Repr

/-- Modelled from the spec: the `Video` component's file-input change
handler is not under `src/`. Spec §4.1: "on file-input change, if
autosave is enabled and the file satisfies the size constraint, invoke
the save step immediately (no separate commit trigger); if autosave is
disabled, no external write occurs", and §8: "a file exceeding the
configured maximum must not trigger a write". The result lists the sizes
of the files passed to the external writer `overwriteFile`. -/
def videoChangeHandler (p : VideoProps) (fileSize : Nat) : List Nat :=
  if p.autosave then
    match p.maxSize with
    | some m => if fileSize > m then [] else [fileSize]
    | none => [fileSize]
  else []

/-! ### Concrete values used in witnesses and counterexamples -/

/-- A concrete `Thing`. -/
def exThing : Thing :=
  { url := "https://example.test/profile#me"
    props := [("https://schema.test/name", "Alice", none)] }

/-- A concrete dataset without resource info (new, never-fetched data). -/
def exDatasetNoInfo : SolidDataset :=
  { things := [exThing], resourceInfo := none }

/-- A concrete dataset carrying resource info. -/
def exDatasetFetched : SolidDataset :=
  { things := [exThing], resourceInfo := some "https://example.test/profile" }

/-- The dataset a successful save acknowledges. -/
def exSavedDataset : SolidDataset :=
  { things := [], resourceInfo := some "https://example.test/profile" }

/-- A writer oracle that always succeeds with `exSavedDataset`. -/
def okWorld : String → SolidDataset → Except String SolidDataset :=
  fun _ _ => Except.ok exSavedDataset

/-- A writer oracle that always rejects. -/
def failWorld : String → SolidDataset → Except String SolidDataset :=
  fun _ _ => Except.error "403 Forbidden"

/-- Props of an editable autosaving field with no `saveDatasetTo` and no
callbacks. -/
def exPropsPlain : Props :=
  { saveDatasetTo := none, locale := none, autosave := true, edit := true
    onSave := false, onError := false, property := "https://schema.test/name" }

/-- Props of an editable autosaving field with both callbacks provided. -/
def exPropsCallbacks : Props :=
  { saveDatasetTo := none, locale := none, autosave := true, edit := true
    onSave := true, onError := true, property := "https://schema.test/name" }

/-- A concrete component state. -/
def exState : TextState :=
  { text := some "Bob", initialValue := some "Alice", dataset := some exDatasetFetched }

/-! ### Helper lemmas: the trace of each branch of `saveHandler` -/

/-- With a changed value and a truthy `saveDatasetTo`, a successful save
produces: write, `setDataset`, then `onSave` when provided. -/
theorem saveHandler_saveTo_ok
    (world : String → SolidDataset → Except String SolidDataset)
    (p : Props) (iv : Option String) (t : Thing) (d : SolidDataset)
    (tv : String) (saved : SolidDataset)
    (hneq : iv ≠ some tv) (hdt : truthy p.saveDatasetTo = true)
    (hw : world (p.saveDatasetTo.getD "") (setThing d (updatedThing p t tv)) = Except.ok saved) :
    saveHandler world p iv (some t) (some d) tv =
      SaveEvent.writeCall (p.saveDatasetTo.getD "") (setThing d (updatedThing p t tv)) ::
      SaveEvent.setDatasetCall saved ::
      (if p.onSave then [SaveEvent.onSaveCall (some saved) (updatedThing p t tv)] else []) := by
  simp [saveHandler, hneq, hdt, hw]

/-- With a changed value and a truthy `saveDatasetTo`, a rejected save
produces: write, then `onError` when provided. -/
theorem saveHandler_saveTo_err
    (world : String → SolidDataset → Except String SolidDataset)
    (p : Props) (iv : Option String) (t : Thing) (d : SolidDataset)
    (tv : String) (err : String)
    (hneq : iv ≠ some tv) (hdt : truthy p.saveDatasetTo = true)
    (hw : world (p.saveDatasetTo.getD "") (setThing d (updatedThing p t tv)) = Except.error err) :
    saveHandler world p iv (some t) (some d) tv =
      SaveEvent.writeCall (p.saveDatasetTo.getD "") (setThing d (updatedThing p t tv)) ::
      (if p.onError then [SaveEvent.onErrorCall err] else []) := by
  simp [saveHandler, hneq, hdt, hw]

/-- With a changed value, no truthy `saveDatasetTo`, and a dataset with
resource info, a successful save produces: write at the source URL,
`setDataset`, then `onSave` when provided. -/
theorem saveHandler_info_ok
    (world : String → SolidDataset → Except String SolidDataset)
    (p : Props) (iv : Option String) (t : Thing) (d : SolidDataset)
    (tv : String) (saved : SolidDataset)
    (hneq : iv ≠ some tv) (hdt : truthy p.saveDatasetTo = false)
    (hri : hasResourceInfo d = true)
    (hw : world (getSourceUrl d) (setThing d (updatedThing p t tv)) = Except.ok saved) :
    saveHandler world p iv (some t) (some d) tv =
      SaveEvent.writeCall (getSourceUrl d) (setThing d (updatedThing p t tv)) ::
      SaveEvent.setDatasetCall saved ::
      (if p.onSave then [SaveEvent.onSaveCall (some saved) (updatedThing p t tv)] else []) := by
  simp [saveHandler, hneq, hdt, hri, hw]

/-- With a changed value, no truthy `saveDatasetTo`, and a dataset with
resource info, a rejected save produces: write, then `onError` when
provided. -/
theorem saveHandler_info_err
    (world : String → SolidDataset → Except String SolidDataset)
    (p : Props) (iv : Option String) (t : Thing) (d : SolidDataset)
    (tv : String) (err : String)
    (hneq : iv ≠ some tv) (hdt : truthy p.saveDatasetTo = false)
    (hri : hasResourceInfo d = true)
    (hw : world (getSourceUrl d) (setThing d (updatedThing p t tv)) = Except.error err) :
    saveHandler world p iv (some t) (some d) tv =
      SaveEvent.writeCall (getSourceUrl d) (setThing d (updatedThing p t tv)) ::
      (if p.onError then [SaveEvent.onErrorCall err] else []) := by
  simp [saveHandler, hneq, hdt, hri, hw]

/-- With a changed value but neither a truthy `saveDatasetTo` nor
resource info, the handler installs the throwing error-state updater and
then calls `onSave` (when provided) with an undefined saved dataset. -/
theorem saveHandler_no_destination
    (world : String → SolidDataset → Except String SolidDataset)
    (p : Props) (iv : Option String) (t : Thing) (d : SolidDataset)
    (tv : String)
    (hneq : iv ≠ some tv) (hdt : truthy p.saveDatasetTo = false)
    (hri : hasResourceInfo d = false) :
    saveHandler world p iv (some t) (some d) tv =
      SaveEvent.errorStateThrow "Please provide saveDatasetTo location for new data" ::
      (if p.onSave then [SaveEvent.onSaveCall none (updatedThing p t tv)] else []) := by
  simp [saveHandler, hneq, hdt, hri]

/-! ### Claim theorems -/

/-- C1: For every blur event on the editable Text field where the input's
current value (the edit buffer as rendered) equals the initial value
snapshotted on focus, the external writer `saveSolidDatasetAt` is never
invoked and neither `onSave` nor `onError` is called. -/
theorem text_blur_equal_value_noop
    (world : String → SolidDataset → Except String SolidDataset)
    (p : Props) (iv : Option String) (th : Option Thing)
    (ds : Option SolidDataset) (tv : String)
    (heq : iv = some tv) :
    countWrites (blurHandler world p iv th ds tv) = 0 ∧
    onSaveCalls (blurHandler world p iv th ds tv) = [] ∧
    onErrorCalls (blurHandler world p iv th ds tv) = [] := by
  subst heq
  have htr : blurHandler world p (some tv) th ds tv = [] := by
    cases th <;> cases ds <;> simp [blurHandler, saveHandler]
  rw [htr]
  exact ⟨rfl, rfl, rfl⟩

/-- Witness for C1 at a concrete no-op blur. -/
theorem text_blur_equal_value_noop_witness :
    countWrites (blurHandler okWorld exPropsPlain (some "Alice") (some exThing)
      (some exDatasetFetched) "Alice") = 0 ∧
    onSaveCalls (blurHandler okWorld exPropsPlain (some "Alice") (some exThing)
      (some exDatasetFetched) "Alice") = [] ∧
    onErrorCalls (blurHandler okWorld exPropsPlain (some "Alice") (some exThing)
      (some exDatasetFetched) "Alice") = [] :=
  text_blur_equal_value_noop okWorld exPropsPlain (some "Alice") (some exThing)
    (some exDatasetFetched) "Alice" rfl

/-- C2 counterexample: a blur event with autosave enabled, a changed
value, and thing and dataset present — but no `saveDatasetTo` prop and a
dataset without resource info — invokes the external writer zero times,
not exactly once. -/
theorem text_blur_autosave_write_counterexample :
    exPropsPlain.autosave = true ∧
    (some "Alice" : Option String) ≠ some "Bob" ∧
    countWrites (blurHandler okWorld exPropsPlain (some "Alice") (some exThing)
      (some exDatasetNoInfo) "Bob") = 0 := by
  refine ⟨rfl, by decide, rfl⟩

/-- C2 (amended): for every blur event with autosave enabled, a changed
value, thing and dataset present, and an available save destination
(a truthy `saveDatasetTo` prop, or a dataset carrying resource info), the
external writer is invoked exactly once, and that invocation is the very
first event of the trace — in particular it happens before any
`setDataset` update of the displayed canonical value. -/
theorem text_blur_autosave_write_once
    (world : String → SolidDataset → Except String SolidDataset)
    (p : Props) (iv : Option String) (t : Thing) (d : SolidDataset) (tv : String)
    (hauto : p.autosave = true) (hneq : iv ≠ some tv)
    (hdest : truthy p.saveDatasetTo = true ∨ hasResourceInfo d = true) :
    countWrites (blurHandler world p iv (some t) (some d) tv) = 1 ∧
    ∃ loc body tl,
      blurHandler world p iv (some t) (some d) tv =
        SaveEvent.writeCall loc body :: tl := by
  have hb : blurHandler world p iv (some t) (some d) tv =
      saveHandler world p iv (some t) (some d) tv := by
    simp [blurHandler, hauto]
  rw [hb]
  by_cases hdt : truthy p.saveDatasetTo = true
  · cases hw : world (p.saveDatasetTo.getD "") (setThing d (updatedThing p t tv)) with
    | ok saved =>
      rw [saveHandler_saveTo_ok world p iv t d tv saved hneq hdt hw]
      refine ⟨?_, _, _, _, rfl⟩
      cases hos : p.onSave <;> simp [hos, countWrites]
    | error err =>
      rw [saveHandler_saveTo_err world p iv t d tv err hneq hdt hw]
      refine ⟨?_, _, _, _, rfl⟩
      cases hoe : p.onError <;> simp [hoe, countWrites]
  · have hdf : truthy p.saveDatasetTo = false := by
      cases h : truthy p.saveDatasetTo
      · rfl
      · exact absurd h hdt
    have hri : hasResourceInfo d = true := by
      rcases hdest with h | h
      · exact absurd h hdt
      · exact h
    cases hw : world (getSourceUrl d) (setThing d (updatedThing p t tv)) with
    | ok saved =>
      rw [saveHandler_info_ok world p iv t d tv saved hneq hdf hri hw]
      refine ⟨?_, _, _, _, rfl⟩
      cases hos : p.onSave <;> simp [hos, countWrites]
    | error err =>
      rw [saveHandler_info_err world p iv t d tv err hneq hdf hri hw]
      refine ⟨?_, _, _, _, rfl⟩
      cases hoe : p.onError <;> simp [hoe, countWrites]

/-- Witness for the amended C2 at a concrete changed-value blur on a
fetched dataset. -/
theorem text_blur_autosave_write_once_witness :
    countWrites (blurHandler okWorld exPropsPlain (some "Alice") (some exThing)
      (some exDatasetFetched) "Bob") = 1 ∧
    ∃ loc body tl,
      blurHandler okWorld exPropsPlain (some "Alice") (some exThing)
        (some exDatasetFetched) "Bob" = SaveEvent.writeCall loc body :: tl :=
  text_blur_autosave_write_once okWorld exPropsPlain (some "Alice") exThing
    exDatasetFetched "Bob" rfl (by decide) (Or.inr rfl)

/-- C3: For every save attempt in which the external write fails — the
guard holds (changed value, thing and dataset present), a destination is
available, the writer rejects with `err`, and `onError` is provided —
`onError` is invoked exactly once with the failure detail, `setDataset`
is never called, the component state (hence the displayed value) is
unchanged, and the writer is invoked exactly once (no retry). -/
theorem text_save_failure_onError_once
    (world : String → SolidDataset → Except String SolidDataset)
    (p : Props) (iv : Option String) (t : Thing) (d : SolidDataset)
    (tv err : String) (s : TextState)
    (hneq : iv ≠ some tv)
    (hdest : truthy p.saveDatasetTo = true ∨ hasResourceInfo d = true)
    (hfail : ∀ loc body, world loc body = Except.error err)
    (hoe : p.onError = true) :
    onErrorCalls (saveHandler world p iv (some t) (some d) tv) = [err] ∧
    countSetDataset (saveHandler world p iv (some t) (some d) tv) = 0 ∧
    countWrites (saveHandler world p iv (some t) (some d) tv) = 1 ∧
    runTrace s (saveHandler world p iv (some t) (some d) tv) = s ∧
    render p (some t) (runTrace s (saveHandler world p iv (some t) (some d) tv)) =
      render p (some t) s := by
  have htr : saveHandler world p iv (some t) (some d) tv =
      [SaveEvent.writeCall
        (if truthy p.saveDatasetTo then p.saveDatasetTo.getD "" else getSourceUrl d)
        (setThing d (updatedThing p t tv)),
       SaveEvent.onErrorCall err] := by
    by_cases hdt : truthy p.saveDatasetTo = true
    · rw [saveHandler_saveTo_err world p iv t d tv err hneq hdt (hfail _ _), hoe]
      simp [hdt]
    · have hdf : truthy p.saveDatasetTo = false := by
        cases h : truthy p.saveDatasetTo
        · rfl
        · exact absurd h hdt
      have hri : hasResourceInfo d = true := by
        rcases hdest with h | h
        · exact absurd h hdt
        · exact h
      rw [saveHandler_info_err world p iv t d tv err hneq hdf hri (hfail _ _), hoe]
      simp [hdf]
  rw [htr]
  exact ⟨rfl, rfl, rfl, rfl, rfl⟩

/-- Witness for C3 at a concrete rejected save. -/
theorem text_save_failure_onError_once_witness :
    onErrorCalls (saveHandler failWorld exPropsCallbacks (some "Alice") (some exThing)
      (some exDatasetFetched) "Bob") = ["403 Forbidden"] ∧
    countSetDataset (saveHandler failWorld exPropsCallbacks (some "Alice") (some exThing)
      (some exDatasetFetched) "Bob") = 0 ∧
    countWrites (saveHandler failWorld exPropsCallbacks (some "Alice") (some exThing)
      (some exDatasetFetched) "Bob") = 1 ∧
    runTrace exState (saveHandler failWorld exPropsCallbacks (some "Alice") (some exThing)
      (some exDatasetFetched) "Bob") = exState ∧
    render exPropsCallbacks (some exThing)
        (runTrace exState (saveHandler failWorld exPropsCallbacks (some "Alice")
          (some exThing) (some exDatasetFetched) "Bob")) =
      render exPropsCallbacks (some exThing) exState :=
  text_save_failure_onError_once failWorld exPropsCallbacks (some "Alice") exThing
    exDatasetFetched "Bob" "403 Forbidden" exState (by decide) (Or.inr rfl)
    (fun _ _ => rfl) rfl

/-- C4: For every save attempt in which the external write succeeds — the
guard holds, a destination is available, the writer acknowledges `saved`,
and `onSave` is provided — the canonical dataset state is replaced with
the server-acknowledged saved dataset, and `onSave` is invoked exactly
once with the saved dataset and the updated Thing. -/
theorem text_save_success_onSave_once
    (world : String → SolidDataset → Except String SolidDataset)
    (p : Props) (iv : Option String) (t : Thing) (d : SolidDataset)
    (tv : String) (saved : SolidDataset) (s : TextState)
    (hneq : iv ≠ some tv)
    (hdest : truthy p.saveDatasetTo = true ∨ hasResourceInfo d = true)
    (hok : ∀ loc body, world loc body = Except.ok saved)
    (hos : p.onSave = true) :
    onSaveCalls (saveHandler world p iv (some t) (some d) tv) =
      [(some saved, updatedThing p t tv)] ∧
    countSetDataset (saveHandler world p iv (some t) (some d) tv) = 1 ∧
    runTrace s (saveHandler world p iv (some t) (some d) tv) =
      { s with dataset := some saved } := by
  have htr : saveHandler world p iv (some t) (some d) tv =
      [SaveEvent.writeCall
        (if truthy p.saveDatasetTo then p.saveDatasetTo.getD "" else getSourceUrl d)
        (setThing d (updatedThing p t tv)),
       SaveEvent.setDatasetCall saved,
       SaveEvent.onSaveCall (some saved) (updatedThing p t tv)] := by
    by_cases hdt : truthy p.saveDatasetTo = true
    · rw [saveHandler_saveTo_ok world p iv t d tv saved hneq hdt (hok _ _), hos]
      simp [hdt]
    · have hdf : truthy p.saveDatasetTo = false := by
        cases h : truthy p.saveDatasetTo
        · rfl
        · exact absurd h hdt
      have hri : hasResourceInfo d = true := by
        rcases hdest with h | h
        · exact absurd h hdt
        · exact h
      rw [saveHandler_info_ok world p iv t d tv saved hneq hdf hri (hok _ _), hos]
      simp [hdf]
  rw [htr]
  exact ⟨rfl, rfl, rfl⟩

/-- Witness for C4 at a concrete acknowledged save. -/
theorem text_save_success_onSave_once_witness :
    onSaveCalls (saveHandler okWorld exPropsCallbacks (some "Alice") (some exThing)
      (some exDatasetFetched) "Bob") =
      [(some exSavedDataset, updatedThing exPropsCallbacks exThing "Bob")] ∧
    countSetDataset (saveHandler okWorld exPropsCallbacks (some "Alice") (some exThing)
      (some exDatasetFetched) "Bob") = 1 ∧
    runTrace exState (saveHandler okWorld exPropsCallbacks (some "Alice") (some exThing)
      (some exDatasetFetched) "Bob") = { exState with dataset := some exSavedDataset } :=
  text_save_success_onSave_once okWorld exPropsCallbacks (some "Alice") exThing
    exDatasetFetched "Bob" exSavedDataset exState (by decide) (Or.inr rfl)
    (fun _ _ => rfl) rfl

/-- C5 counterexample: on an autosave-triggered save with no
`saveDatasetTo` prop and a dataset without resource info, with `onError`
provided, `onError` is never invoked; instead the configuration error is
thrown from the error-state updater (escaping the component to the
surrounding error boundary). -/
theorem text_no_destination_counterexample :
    exPropsCallbacks.onError = true ∧
    onErrorCalls (blurHandler okWorld exPropsCallbacks (some "Alice") (some exThing)
      (some exDatasetNoInfo) "Bob") = [] ∧
    thrownErrors (blurHandler okWorld exPropsCallbacks (some "Alice") (some exThing)
      (some exDatasetNoInfo) "Bob") =
      ["Please provide saveDatasetTo location for new data"] := by
  refine ⟨rfl, rfl, rfl⟩

/-- C5 (amended): for every autosave-triggered save with no destination
(no truthy `saveDatasetTo` and no resource info), the condition is
signalled by installing a state updater that throws the configuration
`Error` during the next render, escaping to the surrounding error
boundary; `onError` is never invoked, the external writer is never
invoked, and `onSave` — when provided — is additionally invoked with an
undefined saved dataset. -/
theorem text_no_destination_throws
    (world : String → SolidDataset → Except String SolidDataset)
    (p : Props) (iv : Option String) (t : Thing) (d : SolidDataset) (tv : String)
    (hauto : p.autosave = true) (hneq : iv ≠ some tv)
    (hdt : truthy p.saveDatasetTo = false) (hri : hasResourceInfo d = false) :
    thrownErrors (blurHandler world p iv (some t) (some d) tv) =
      ["Please provide saveDatasetTo location for new data"] ∧
    onErrorCalls (blurHandler world p iv (some t) (some d) tv) = [] ∧
    countWrites (blurHandler world p iv (some t) (some d) tv) = 0 ∧
    onSaveCalls (blurHandler world p iv (some t) (some d) tv) =
      (if p.onSave then [(none, updatedThing p t tv)] else []) := by
  have hb : blurHandler world p iv (some t) (some d) tv =
      saveHandler world p iv (some t) (some d) tv := by
    simp [blurHandler, hauto]
  rw [hb, saveHandler_no_destination world p iv t d tv hneq hdt hri]
  cases hos : p.onSave <;>
    simp [hos, thrownErrors, onErrorCalls, countWrites, onSaveCalls]

/-- Witness for the amended C5 at a concrete destination-less save. -/
theorem text_no_destination_throws_witness :
    thrownErrors (blurHandler okWorld exPropsCallbacks (some "Alice") (some exThing)
      (some exDatasetNoInfo) "Bob") =
      ["Please provide saveDatasetTo location for new data"] ∧
    onErrorCalls (blurHandler okWorld exPropsCallbacks (some "Alice") (some exThing)
      (some exDatasetNoInfo) "Bob") = [] ∧
    countWrites (blurHandler okWorld exPropsCallbacks (some "Alice") (some exThing)
      (some exDatasetNoInfo) "Bob") = 0 ∧
    onSaveCalls (blurHandler okWorld exPropsCallbacks (some "Alice") (some exThing)
      (some exDatasetNoInfo) "Bob") =
      (if exPropsCallbacks.onSave then
        [(none, updatedThing exPropsCallbacks exThing "Bob")] else []) :=
  text_no_destination_throws okWorld exPropsCallbacks (some "Alice") exThing
    exDatasetNoInfo "Bob" rfl (by decide) rfl rfl

/-- C9: for every autosave-triggered save on the Text field with neither
a truthy `saveDatasetTo` location nor resource info on the dataset, the
`onSave` callback (when provided) is still invoked, with an undefined
saved dataset as its first argument, even though the external writer was
never invoked. -/
theorem text_no_destination_onSave_undefined
    (world : String → SolidDataset → Except String SolidDataset)
    (p : Props) (iv : Option String) (t : Thing) (d : SolidDataset) (tv : String)
    (hauto : p.autosave = true) (hneq : iv ≠ some tv)
    (hdt : truthy p.saveDatasetTo = false) (hri : hasResourceInfo d = false)
    (hos : p.onSave = true) :
    onSaveCalls (blurHandler world p iv (some t) (some d) tv) =
      [(none, updatedThing p t tv)] ∧
    countWrites (blurHandler world p iv (some t) (some d) tv) = 0 := by
  have hb : blurHandler world p iv (some t) (some d) tv =
      saveHandler world p iv (some t) (some d) tv := by
    simp [blurHandler, hauto]
  rw [hb, saveHandler_no_destination world p iv t d tv hneq hdt hri, hos]
  exact ⟨rfl, rfl⟩

/-- Witness for C9 at a concrete destination-less save with `onSave`
provided. -/
theorem text_no_destination_onSave_undefined_witness :
    onSaveCalls (blurHandler failWorld exPropsCallbacks (some "Carol") (some exThing)
      (some exDatasetNoInfo) "Dave") =
      [(none, updatedThing exPropsCallbacks exThing "Dave")] ∧
    countWrites (blurHandler failWorld exPropsCallbacks (some "Carol") (some exThing)
      (some exDatasetNoInfo) "Dave") = 0 :=
  text_no_destination_onSave_undefined failWorld exPropsCallbacks (some "Carol")
    exThing exDatasetNoInfo "Dave" rfl (by decide) rfl rfl rfl

/-- C6: for every successfully resolved value, when the `edit` flag is
false and dataset and thing are present, the Text component renders a
span whose content is exactly the resolved string, untransformed, and no
input. -/
theorem text_non_edit_renders_value_verbatim
    (p : Props) (t : Thing) (d : SolidDataset) (v : String)
    (hedit : p.edit = false) :
    render p (some t) (initialTextState (some v) (some d)) =
      Rendered.fragment (some (some v)) none := by
  simp [render, initialTextState, hedit]

/-- Witness for C6 at a concrete resolved value. -/
theorem text_non_edit_renders_value_verbatim_witness :
    render { exPropsPlain with edit := false } (some exThing)
        (initialTextState (some "Alice") (some exDatasetFetched)) =
      Rendered.fragment (some (some "Alice")) none :=
  text_non_edit_renders_value_verbatim { exPropsPlain with edit := false }
    exThing exDatasetFetched "Alice" rfl

/-- C7: for every change event on the editable Text input, only the edit
buffer is updated: the trace is empty (no external write, no callbacks),
and the initial-value snapshot and the canonical dataset are unchanged. -/
theorem text_change_updates_buffer_only (s : TextState) (v : String) :
    (changeHandler s v).1.text = some v ∧
    (changeHandler s v).1.initialValue = s.initialValue ∧
    (changeHandler s v).1.dataset = s.dataset ∧
    (changeHandler s v).2 = [] ∧
    countWrites (changeHandler s v).2 = 0 := by
  exact ⟨rfl, rfl, rfl, rfl, rfl⟩

/-- C8 (Video, modelled from the spec): for every file-input change with
autosave enabled, if the selected file's size exceeds the configured
`maxSize`, the external writer `overwriteFile` is never invoked. -/
theorem video_oversize_file_no_write
    (p : VideoProps) (m fileSize : Nat)
    (hauto : p.autosave = true) (hmax : p.maxSize = some m)
    (hsz : m < fileSize) :
    videoChangeHandler p fileSize = [] := by
  simp [videoChangeHandler, hauto, hmax, hsz]

/-- Witness for C8 at a concrete oversized file. -/
theorem video_oversize_file_no_write_witness :
    videoChangeHandler { autosave := true, maxSize := some 0 } 1024 = [] :=
  video_oversize_file_no_write { autosave := true, maxSize := some 0 } 0 1024
    rfl rfl (by decide)

/-- C10: for every blur event where the resolved thing or the dataset is
absent, the save handler is a complete no-op even with autosave enabled
and a changed value: the trace is empty (no write, no `setDataset`, no
callback) and the component state is unchanged. -/
theorem text_save_noop_without_thing_or_dataset
    (world : String → SolidDataset → Except String SolidDataset)
    (p : Props) (iv : Option String) (th : Option Thing)
    (ds : Option SolidDataset) (tv : String) (s : TextState)
    (habsent : th = none ∨ ds = none) :
    saveHandler world p iv th ds tv = [] ∧
    countWrites (saveHandler world p iv th ds tv) = 0 ∧
    onSaveCalls (saveHandler world p iv th ds tv) = [] ∧
    onErrorCalls (saveHandler world p iv th ds tv) = [] ∧
    runTrace s (saveHandler world p iv th ds tv) = s := by
  have htr : saveHandler world p iv th ds tv = [] := by
    rcases habsent with h | h
    · subst h
      cases ds <;> simp [saveHandler]
    · subst h
      cases th <;> simp [saveHandler]
  rw [htr]
  exact ⟨rfl, rfl, rfl, rfl, rfl⟩

/-- Witness for C10 at a concrete blur with an absent thing. -/
theorem text_save_noop_without_thing_or_dataset_witness :
    saveHandler okWorld exPropsPlain (some "Alice") none
      (some exDatasetFetched) "Bob" = [] ∧
    countWrites (saveHandler okWorld exPropsPlain (some "Alice") none
      (some exDatasetFetched) "Bob") = 0 ∧
    onSaveCalls (saveHandler okWorld exPropsPlain (some "Alice") none
      (some exDatasetFetched) "Bob") = [] ∧
    onErrorCalls (saveHandler okWorld exPropsPlain (some "Alice") none
      (some exDatasetFetched) "Bob") = [] ∧
    runTrace exState (saveHandler okWorld exPropsPlain (some "Alice") none
      (some exDatasetFetched) "Bob") = exState :=
  text_save_noop_without_thing_or_dataset okWorld exPropsPlain (some "Alice")
    none (some exDatasetFetched) "Bob" exState (Or.inl rfl)

end SolidUI
